import Mathlib

/-!
Shallow embedding of the agent-orchestration core of the AutoCrawlingUsingLLM
repository, together with theorems settling the frozen claims C1-C10.

Conventions of the embedding:
* Python strings are modelled as Lean `String` (or `List Char` where character
  level recursion is needed).  Python `str.strip()` is modelled by `String.trim`
  (an ASCII approximation of unicode whitespace stripping; every claim below
  only depends on ASCII behaviour).
* Python dictionaries whose key sets are dynamic are modelled as functions
  `String → Option PyV` (`none` = key absent).  Iteration order of dictionaries
  never matters for the claims below.
* External collaborators (web search, browser automation, LLM reasoning
  service) are modelled as oracle functions bundled in `Collab`; the code under
  verification never depends on how those oracles compute, only on the shape of
  what they return.  The collaborators never raise: `WebSearcher.search_links`
  is wrapped in `handle_errors(default_return=[])`,
  `LLMHandler.chat_with_ollama_for_tools` catches `Exception` broadly and
  `BrowserController.browse_website` converts every exception into an error
  envelope.
-/

namespace Crawl

/-- Dynamic Python value, restricted to the shapes the extraction pipeline
actually passes around: `None`, strings and integers. -/
inductive PyV
  | vNone
  | vStr (s : String)
  | vInt (n : Int)
deriving DecidableEq, Repr

/-- Python `str(v)` on the values of `PyV`. -/
def pyStr : PyV → String
  | .vNone => "None"
  | .vStr s => s
  | .vInt n => toString n

/-- A Python dict with dynamic keys, as a lookup function. -/
def DictS := String → Option PyV

/-- Setting one key of a dict (`d[k] = v`). -/
def dset (m : DictS) (k : String) (v : PyV) : DictS :=
  fun q => if q = k then some v else m q

/-- Python `old in s` on character lists (substring containment). -/
def listHasSub (pat : List Char) : List Char → Bool
  | [] => decide (pat = [])
  | c :: cs => decide ((c :: cs).take pat.length = pat) || listHasSub pat cs

/-- Python `pat in hay` for strings. -/
def strHasSub (hay pat : String) : Bool :=
  listHasSub pat.toList hay.toList

/-- Python `s.startswith(pre)`. -/
def strStarts (s pre : String) : Bool :=
  decide (s.toList.take pre.toList.length = pre.toList)

/-- Python `s.replace(old, new)` specialised to a single-character pattern and
single-character replacement; left-to-right scan exactly as CPython does. -/
def pyReplaceChar (old new : Char) : List Char → List Char
  | [] => []
  | c :: cs => (if c = old then new else c) :: pyReplaceChar old new cs

/-- Python `s.replace("www.", "")`: remove every (non-overlapping, leftmost
first) occurrence of the four-character pattern. -/
def removeWWWAll : List Char → List Char
  | 'w' :: 'w' :: 'w' :: '.' :: rest => removeWWWAll rest
  | c :: cs => c :: removeWWWAll cs
  | [] => []

/-- Python `s.replace(a ++ b, r)` for a two-character pattern replaced by one
character (the escape-sequence normalisations of the narrow fallback). -/
def pyReplacePair (a b r : Char) : List Char → List Char
  | [] => []
  | [c] => [c]
  | c :: d :: rest =>
      if c = a ∧ d = b then r :: pyReplacePair a b r rest
      else c :: pyReplacePair a b r (d :: rest)

end Crawl

namespace Crawl

/-! ## `BrowserController` (src/core/browser_controller.py)

Reference-counted single browser session.  `_ensure_browser` increments the
use count and lazily launches the driver; `_maybe_close_browser` decrements
and closes when forced or when the count reaches zero with a live driver. -/

/-- The mutable fields of `BrowserController` relevant to the use count. -/
structure BrowserState where
  userCount : Int
  driverLive : Bool
deriving DecidableEq, Repr

/-- Model of `BrowserController._ensure_browser` (lines 27-43).  `launchOk` is the
oracle outcome of `_init_selenium_driver`; on a failed launch the increment is
rolled back and a `RuntimeError` is raised (modelled as `Except.error`). -/
def ensureBrowser (launchOk : Bool) (s : BrowserState) : Except Unit BrowserState :=
  let s1 : BrowserState := { s with userCount := s.userCount + 1 }
  if s1.driverLive then .ok s1
  else if launchOk then .ok { s1 with driverLive := true }
  else .error ()

/-- Model of `BrowserController._maybe_close_browser` (lines 121-136).  The decrement
always happens; the close branch runs when forced or when the count is ≤ 0
with a live driver; the defensive clamp to zero sits in an `elif`, so it runs
only when the close branch did not. -/
def maybeCloseBrowser (forceClose : Bool) (closeRaises : Bool) (s : BrowserState) :
    BrowserState :=
  let s1 : BrowserState := { s with userCount := s.userCount - 1 }
  if forceClose ∨ (s1.userCount ≤ 0 ∧ s1.driverLive) then
    -- the `try` around the close only guards `driver = None`; a raising close
    -- leaves the driver reference in place, the count is unaffected either way
    if closeRaises then s1 else { s1 with driverLive := false }
  else if s1.userCount < 0 then { s1 with userCount := 0 }
  else s1

/-- One acquire/release operation on the browser session. -/
inductive BrowserOp
  | acquire (launchOk : Bool)
  | release (forceClose : Bool)
deriving DecidableEq, Repr

/-- Run a sequence of acquire/release operations from a state (a failed
acquire leaves the rolled-back state behind, as the raised `RuntimeError`
does not change any further field). -/
def runBrowserOps (s : BrowserState) : List BrowserOp → BrowserState
  | [] => s
  | .acquire ok :: rest =>
      match ensureBrowser ok s with
      | .ok s1 => runBrowserOps s1 rest
      | .error _ => runBrowserOps { s with userCount := s.userCount } rest
  | .release f :: rest => runBrowserOps (maybeCloseBrowser f false s) rest

/-- The initial `BrowserController` state (`__init__`, lines 20-25). -/
def browserInit : BrowserState := { userCount := 0, driverLive := false }

end Crawl

namespace Crawl

/-! ## `DataExtractor._derive_blog_id` (src/core/data_extractor.py, lines 13-24) -/

/-- Python anchored-regex scheme removal in `_derive_blog_id`: the pattern
matches only at the start, so at most one `http://` or `https://` is
removed. -/
def dropScheme (l : List Char) : List Char :=
  if l.take 8 = "https://".toList then l.drop 8
  else if l.take 7 = "http://".toList then l.drop 7
  else l

/-- Python `s.split('/')[0]`: the characters before the first slash. -/
def firstSegment (l : List Char) : List Char := l.takeWhile (fun c => c ≠ '/')

/-- Python `str.isalnum` restricted to ASCII (the model of the name slug; every input
exercised by a claim is ASCII). -/
def pyIsAlnum (c : Char) : Bool := c.isAlphanum

/-- The name slug of `_derive_blog_id`:
`"".join(filter(str.isalnum, blog_name.lower().replace(" ", "_")))[:20]`. -/
def nameSlug (name : String) : List Char :=
  ((pyReplaceChar ' ' '_' (name.toList.map Char.toLower)).filter pyIsAlnum).take 20

/-- Model of `DataExtractor._derive_blog_id` on string inputs.  The `try`/`except`
around the body can only fire for non-string arguments (see
`deriveBlogIdPy`); for strings every operation is total.  Python truthiness of
`blog_name` makes both `None` and the empty string skip the slug. -/
def deriveBlogId (url : String) (blogName : Option String) : String :=
  let domain := firstSegment (dropScheme url.toList)
  let domain2 := removeWWWAll domain
  let blogIdPart := pyReplaceChar '-' '_' (pyReplaceChar '.' '_' domain2)
  match blogName with
  | some n =>
      if n = "" then ⟨blogIdPart⟩
      else ⟨blogIdPart⟩ ++ "_" ++ ⟨nameSlug n⟩
  | none => ⟨blogIdPart⟩

/-- Model of `_derive_blog_id` as called with a dynamic `blog_name` value taken from a
structured record: a truthy non-string name makes `blog_name.lower()` raise
`AttributeError`, which the local `except` turns into
`"unknown_blog_id"`; falsy values (`None`, `""`, `0`) skip the slug. -/
def deriveBlogIdPy (url : String) (blogName : PyV) : String :=
  match blogName with
  | .vStr s => deriveBlogId url (some s)
  | .vNone => deriveBlogId url none
  | .vInt n => if n = 0 then deriveBlogId url none else "unknown_blog_id"

/-- The reference algorithm exactly as claim C9 words it (for comparison with
the code): strip the scheme, strip a `www.` prefix (only as a prefix), replace
every non-alphanumeric host character with an underscore, append the slug of
the first 20 alphanumeric characters of the lowercased name. -/
def deriveBlogIdClaimRef (url : String) (blogName : Option String) : String :=
  let domain := firstSegment (dropScheme url.toList)
  let domain2 := if domain.take 4 = "www.".toList then domain.drop 4 else domain
  let blogIdPart := domain2.map (fun c => if pyIsAlnum c then c else '_')
  match blogName with
  | some n =>
      if n = "" then ⟨blogIdPart⟩
      else ⟨blogIdPart⟩ ++ "_" ++ ⟨nameSlug n⟩
  | none => ⟨blogIdPart⟩

/-- The host transformation as the amended claim words it: remove every
occurrence of the substring `www.`, then map `.` and `-` to `_` keeping every
other character unchanged. -/
def deriveBlogIdAmendedRef (url : String) (blogName : Option String) : String :=
  let domain := firstSegment (dropScheme url.toList)
  let blogIdPart :=
    (removeWWWAll domain).map (fun c => if c = '.' ∨ c = '-' then '_' else c)
  match blogName with
  | some n =>
      if n = "" then ⟨blogIdPart⟩
      else ⟨blogIdPart⟩ ++ "_" ++ ⟨nameSlug n⟩
  | none => ⟨blogIdPart⟩

end Crawl

namespace Crawl

/-! ## `DataExtractor.structure_blog_info` (src/core/data_extractor.py, lines 26-106) -/

/-- Model of `settings.DATA_FIELDS_TO_EXTRACT` (src/config/settings.py). -/
def DATA_FIELDS : List String :=
  ["blog_id", "blog_name", "blog_url", "recent_post_date", "first_post_date",
   "total_posts", "blog_creation_date", "average_visitors", "llm_summary"]

/-- Row of the field-alias table for `blog_name` (line 39). -/
def tabBlogName : String × List String :=
  ("blog_name", ["blog_name", "title", "site_title", "website_name", "name", "blog_title"])

/-- Row of the field-alias table for `blog_url` (line 40). -/
def tabBlogUrl : String × List String :=
  ("blog_url", ["blog_url", "url", "website_url", "site_url", "link"])

/-- Row of the field-alias table for `recent_post_date` (line 41). -/
def tabRecent : String × List String :=
  ("recent_post_date", ["recent_post_date", "latest_post_date", "last_post_date",
    "newest_post_date", "latest_post"])

/-- Row of the field-alias table for `first_post_date` (line 42). -/
def tabFirst : String × List String :=
  ("first_post_date", ["first_post_date", "first_post_date_info", "earliest_post_date",
    "start_date", "first_post"])

/-- Row of the field-alias table for `total_posts` (line 43). -/
def tabTotal : String × List String :=
  ("total_posts", ["total_posts", "total_posts_info", "post_count", "article_count",
    "number_of_posts", "posts_count"])

/-- Row of the field-alias table for `blog_creation_date` (line 44). -/
def tabCreation : String × List String :=
  ("blog_creation_date", ["blog_creation_date", "blog_creation_date_info", "created_date",
    "founding_date", "launch_date"])

/-- Row of the field-alias table for `average_visitors` (line 45). -/
def tabVisitors : String × List String :=
  ("average_visitors", ["average_visitors", "average_visitors_hint", "monthly_visitors",
    "visitor_count", "traffic", "page_views"])

/-- Row of the field-alias table for `llm_summary` (line 46). -/
def tabSummary : String × List String :=
  ("llm_summary", ["llm_summary", "main_content_summary", "summary", "description",
    "about", "content_summary"])

/-- The field-alias table of `structure_blog_info` (lines 38-47). -/
def fieldMappingTable : List (String × List String) :=
  [tabBlogName, tabBlogUrl, tabRecent, tabFirst, tabTotal, tabCreation,
   tabVisitors, tabSummary]

/-- Lookup of a key in the raw LLM output dict (modelled as an association
list; LLM dicts have no duplicate keys). -/
def rawLookup (raw : List (String × PyV)) (k : String) : Option PyV :=
  (raw.find? (fun p => p.1 = k)).map (fun p => p.2)

/-- The inner loop of the alias mapping (lines 70-74): the value of the first
PRESENT source key — the loop breaks on presence, not on non-emptiness. -/
def firstPresent (raw : List (String × PyV)) : List String → Option PyV
  | [] => none
  | s :: rest =>
      match rawLookup raw s with
      | some v => some v
      | none => firstPresent raw rest

/-- The guard `found_value is not None and found_value != ""` (line 76). -/
def cellOk : PyV → Bool
  | .vNone => false
  | .vStr s => decide (s ≠ "")
  | .vInt _ => true

/-- The value the mapping loop writes for a target field, if any (lines
76-81): the first present source value if non-empty, with `total_posts`
coerced through `str`. -/
def cellValue (target : String) (raw : List (String × PyV)) (srcs : List String) :
    Option PyV :=
  match firstPresent raw srcs with
  | some v =>
      if cellOk v then some (if target = "total_posts" then .vStr (pyStr v) else v)
      else none
  | none => none

/-- One iteration of the mapping loop of `structure_blog_info` (lines 62-87). -/
def mappingStep (raw : List (String × PyV)) (m : DictS) (e : String × List String) :
    DictS :=
  if e.1 ∈ DATA_FIELDS then
    match cellValue e.1 raw e.2 with
    | some w => dset m e.1 w
    | none => m
  else m

/-- The initial structured dict (lines 50-51): every configured field set to
the "Not Found" sentinel, then `blog_url` set to the call argument. -/
def initStructured (blogUrl : String) : DictS :=
  dset (fun k => if k ∈ DATA_FIELDS then some (.vStr "Not Found") else none)
    "blog_url" (.vStr blogUrl)

/-- The condition of the final normalisation pass (line 94). -/
def needsNotFound (v : Option PyV) : Bool :=
  match v with
  | none => true
  | some .vNone => true
  | some (.vStr s) => decide (s = "")
  | some (.vInt _) => false

/-- One step of the final normalisation pass (line 94): replace a missing,
`None` or empty value of field `f` by the sentinel. -/
def finalStep (m : DictS) (f : String) : DictS :=
  if needsNotFound (m f) then dset m f (.vStr "Not Found") else m

/-- The final normalisation pass (lines 93-95). -/
def finalPass (m : DictS) : DictS :=
  DATA_FIELDS.foldl finalStep m

/-- Model of `DataExtractor.structure_blog_info`.  `raw = none` models a decoded value
that is not a dict (the guard at lines 53-57, which returns early without the
final pass). -/
def structureBlogInfo (raw : Option (List (String × PyV))) (blogUrl : String) : DictS :=
  match raw with
  | none =>
      dset (dset (initStructured blogUrl) "blog_name" (.vStr "Data Extraction Error"))
        "blog_id" (.vStr (deriveBlogId blogUrl (some "Data Extraction Error")))
  | some r =>
      let mapped := fieldMappingTable.foldl (mappingStep r) (initStructured blogUrl)
      let withId := dset mapped "blog_id"
        (.vStr (deriveBlogIdPy blogUrl ((mapped "blog_name").getD (.vStr "Unknown"))))
      finalPass withId

/-- The per-field rule exactly as claim C8 words it: the first NON-EMPTY value
among the accepted source keys, else the sentinel (for comparison with the
code). -/
def claimFieldRule (raw : List (String × PyV)) : List String → PyV
  | [] => .vStr "Not Found"
  | s :: rest =>
      match rawLookup raw s with
      | some v => if cellOk v then v else claimFieldRule raw rest
      | none => claimFieldRule raw rest

end Crawl

namespace Crawl

/-! ## `AgentPipeline._execute_tool_call` (src/pipelines/agent_pipeline.py, lines 44-552) -/

/-- The `action_details` sub-dict of a fetch invocation. -/
structure ActionDetails where
  action_type : Option String
  selector : Option String
  input_text : Option String
deriving DecidableEq, Repr

/-- Well-typed tool arguments: a JSON mapping whose values have the types the
handlers expect (`none` = key absent).  Arguments that decode to something
other than a mapping are modelled separately (`ArgPayload.nonMapping`). -/
structure ToolArgs where
  keyword : Option String
  url : Option String
  fields_to_extract : Option (List String)
  action_details : Option ActionDetails
  text_content : Option String
  original_url : Option String
  source_keyword : Option String
  blog_url : Option String
  original_keyword : Option String
  search_results_quality : Option String
deriving DecidableEq, Repr

/-- An all-absent argument mapping. -/
def noArgs : ToolArgs :=
  ⟨none, none, none, none, none, none, none, none, none, none⟩

/-- The `data` field of a `browse_website` envelope. -/
structure BrowseData where
  text_content : Option String
  used_selector : Option String
  message : Option String
deriving DecidableEq, Repr

/-- The envelope `BrowserController.browse_website` always returns. -/
structure BrowseResult where
  status : String
  final_url : String
  page_title : String
  action_performed : String
  data : BrowseData
  error_message : String
deriving DecidableEq, Repr

/-- The `content_quality` payload of a successful fetch result (lines 162-167). -/
structure ContentQuality where
  text_length : Nat
  quality_status : String
  warning : String
  used_selector : String
deriving DecidableEq, Repr

/-- The JSON envelopes `_execute_tool_call` returns (it always returns a JSON
string; the constructors are the shapes of the dicts serialised on each return
path).  `err` carries the human-readable message of every `status: "error"`
envelope; `otherOk` stands for the success envelopes of the two analysis tools
whose payload no claim inspects. -/
inductive ToolResultV
  | err (message : String)
  | searchOk (found_urls : List String) (summary : String)
  | fetchOk (url final_url page_title action_performed : String)
      (requested_fields : List String) (content_quality : ContentQuality)
      (text_content : Option String) (extraction_note : Option String)
      (naver_note : Option String) (message : Option String)
  | extractOk (blog_name blog_id : PyV)
  | finalizeOk (final_blog_count : Nat)
  | otherOk
deriving Repr

/-- The `status` field of a result envelope. -/
def ToolResultV.statusOf : ToolResultV → String
  | .err _ => "error"
  | _ => "success"

/-- Outcome of the multi-strategy decode of the extraction LLM output
(lines 312-356): a dict, a non-dict literal, or nothing decodable. -/
inductive ExtractParse
  | parsedDict (d : List (String × PyV))
  | parsedOther
  | unparsable
deriving Repr

/-- Oracles for the external collaborators (see the header comment; none of
them can raise into the pipeline). -/
structure Collab where
  /-- URL list produced by `search_links` + the url filter in the search branch. -/
  searchUrls : String → List String
  /-- the `browse_website` envelope for a given URL. -/
  browse : String → BrowseResult
  /-- decode outcome of the extraction LLM reply for (text, url). -/
  extractParse : String → String → ExtractParse
  /-- outcome of the keyword-recovery scan over the history (lines 200-244);
  it only refines the `source_keyword` metadata of a record. -/
  recoverKeyword : Option String

/-- Python falsiness of an optional source-keyword value, the condition of
the backfill at line 366 of the pipeline: the key is absent or its value is
falsy. -/
def needsTruthy : Option PyV → Bool
  | none => true
  | some .vNone => true
  | some (.vStr s) => decide (s = "")
  | some (.vInt n) => decide (n = 0)

/-- The extract branch of `_execute_tool_call` (lines 194-401).  Returns the
result envelope and the (possibly extended) collection store. -/
def extractTool (collab : Collab) (args : ToolArgs) (collected : List DictS) :
    ToolResultV × List DictS :=
  let tc := (args.text_content).getD ""
  -- `original_url = tool_args.get("original_url") or tool_args.get("url")`
  let ou :=
    match args.original_url with
    | some u => if u = "" then (args.url).getD "" else u
    | none => (args.url).getD ""
  let sk0 := (args.source_keyword).getD "unknown_keyword"
  let sk := if sk0 = "unknown_keyword" then (collab.recoverKeyword).getD "unknown_keyword"
            else sk0
  if tc = "" then
    (.err "extract_blog_fields_from_text requires text_content", collected)
  else if ou = "" then
    (.err "extract_blog_fields_from_text requires original_url or url", collected)
  else
    let stripped := tc.trim
    if stripped.length = 0 then
      (.err ("Empty text content provided for " ++ ou), collected)
    else if stripped.length < 50 then
      (.err ("Text content too short for reliable extraction from " ++ ou), collected)
    else
      match collab.extractParse tc ou with
      | .unparsable =>
          (.err ("Failed to parse JSON from LLM extraction for " ++ ou), collected)
      | .parsedDict d =>
          let rec0 := structureBlogInfo (some d) ou
          let rec1 := if needsTruthy (rec0 "source_keyword")
                      then dset rec0 "source_keyword" (.vStr sk) else rec0
          (.extractOk ((rec1 "blog_name").getD (.vStr "Unknown"))
             ((rec1 "blog_id").getD (.vStr "Unknown")), collected ++ [rec1])
      | .parsedOther =>
          let rec0 := structureBlogInfo none ou
          let rec1 := if needsTruthy (rec0 "source_keyword")
                      then dset rec0 "source_keyword" (.vStr sk) else rec0
          (.extractOk ((rec1 "blog_name").getD (.vStr "Unknown"))
             ((rec1 "blog_id").getD (.vStr "Unknown")), collected ++ [rec1])

/-- Outcome of the auto-escalation block (lines 126-149): the inner call
either returned an envelope or raised; either way the surrounding
`try`/`except` confines it, and only the collection store can have changed. -/
inductive EscalationOutcome
  | returned (collected : List DictS)
  | raised (collected : List DictS)

/-- Collection store left behind by an escalation outcome. -/
def EscalationOutcome.store : EscalationOutcome → List DictS
  | .returned c => c
  | .raised c => c

/-- A record of one auto-escalated extraction invocation. -/
structure EscalationCall where
  text_content : String
  original_url : String
deriving DecidableEq, Repr

/-- Result of one `_execute_tool_call`: the envelope, the new collection
store, and the auto-escalation invocations that were issued. -/
structure ExecOut where
  result : ToolResultV
  collected : List DictS
  escalations : List EscalationCall

/-- Python truthiness of an optional string (`if not url: ...`). -/
def optTruthy (o : Option String) : Bool :=
  match o with
  | none => false
  | some s => decide (s ≠ "")

/-- The content-quality warning chain of the fetch branch (lines 111-122). -/
def contentWarning (n : Nat) : String :=
  if n = 0 then "empty content warning"
  else if n < 100 then "very short content warning"
  else if n < 300 then "short content warning"
  else ""

/-- The `quality_status` expression of the fetch result (line 164). -/
def qualityStatus (n : Nat) : String :=
  if n ≥ 300 then "good"
  else if n ≥ 100 then "short"
  else if n > 0 then "very_short"
  else "empty"

/-- The fetch branch of `_execute_tool_call`
(`get_webpage_content_and_interact`, lines 65-192).  `escalate` is the
auto-escalation step (the recursive `_execute_tool_call` for
`extract_blog_fields_from_text`), abstracted so that theorems can quantify
over its outcome; `executeToolCall` instantiates it with `extractTool`. -/
def fetchTool (escalate : String → String → List DictS → EscalationOutcome)
    (browse : String → BrowseResult) (args : ToolArgs) (collected : List DictS) :
    ExecOut :=
  if ¬ optTruthy args.url then
    ⟨.err "get_webpage_content_and_interact requires url", collected, []⟩
  else
    let url := (args.url).getD ""
    if ¬ (strStarts url "http://" ∨ strStarts url "https://") then
      ⟨.err ("Invalid URL format: " ++ url), collected, []⟩
    else
      let raw := browse url
      if raw.status = "success" then
        let text := (raw.data.text_content).getD ""
        let n := text.trim.length
        let (collected1, escs) :=
          if n ≥ 300 then
            ((escalate (text.take 5000) url collected).store,
             [⟨text.take 5000, url⟩])
          else (collected, [])
        let cq : ContentQuality :=
          { text_length := n
            quality_status := qualityStatus n
            warning := contentWarning n
            used_selector := (raw.data.used_selector).getD "unknown" }
        let res : ToolResultV :=
          .fetchOk url raw.final_url raw.page_title raw.action_performed
            ((args.fields_to_extract).getD DATA_FIELDS) cq
            raw.data.text_content
            (if raw.data.text_content.isSome ∧ n < 100
             then some "content extraction note" else none)
            (if raw.data.text_content.isSome ∧ n < 100 ∧ strHasSub url "blog.naver.com"
             then some "naver blog note" else none)
            (if raw.data.text_content.isNone then raw.data.message else none)
        ⟨res, collected1, escs⟩
      else
        ⟨.err ("Website access failed: " ++ raw.error_message), collected, []⟩

/-- Model of `AgentPipeline._execute_tool_call` for a well-typed argument mapping:
every branch returns exactly one envelope, and only the extract branch (and
the escalation inside the fetch branch) appends to the collection store. -/
def executeToolCall (collab : Collab) (name : String) (args : ToolArgs)
    (collected : List DictS) : ExecOut :=
  if name = "search_web_for_blogs" then
    if ¬ optTruthy args.keyword then
      ⟨.err "search_web_for_blogs requires keyword", collected, []⟩
    else
      let urls := collab.searchUrls ((args.keyword).getD "")
      ⟨.searchOk urls (toString urls.length ++ " potential blog URLs found"),
       collected, []⟩
  else if name = "get_webpage_content_and_interact" then
    fetchTool (fun t u c => .returned (extractTool collab
        { noArgs with text_content := some t, original_url := some u } c).2)
      collab.browse args collected
  else if name = "extract_blog_fields_from_text" then
    let (r, c) := extractTool collab args collected
    ⟨r, c, []⟩
  else if name = "analyze_blog_quality" then
    if ¬ optTruthy args.blog_url then
      ⟨.err "analyze_blog_quality requires blog_url", collected, []⟩
    else ⟨.otherOk, collected, []⟩
  else if name = "smart_search_refinement" then
    if ¬ (optTruthy args.original_keyword ∧ optTruthy args.search_results_quality) then
      ⟨.err "smart_search_refinement requires original_keyword and search_results_quality",
       collected, []⟩
    else ⟨.otherOk, collected, []⟩
  else if name = "finalize_blog_data_collection" then
    ⟨.finalizeOk collected.length, collected, []⟩
  else
    ⟨.err ("Unknown tool " ++ name), collected, []⟩

/-- The tool names `_execute_tool_call` has handler branches for (a dispatch
to any of these with a non-mapping argument value raises `AttributeError` at
the first `tool_args.get` of the branch). -/
def handlerNames : List String :=
  ["search_web_for_blogs", "get_webpage_content_and_interact",
   "extract_blog_fields_from_text", "analyze_blog_quality",
   "smart_search_refinement", "finalize_blog_data_collection"]

end Crawl

namespace Crawl

/-! ## The orchestration loop (`AgentPipeline.run_agent_for_keywords`,
src/pipelines/agent_pipeline.py, lines 554-875) -/

/-- Content of a message in `messages_history`: plain text (assistant turns
and the non-JSON error string appended for undecodable arguments) or a tool
envelope (which the history scans re-parse successfully). -/
inductive MsgContent
  | text (s : String)
  | toolResult (r : ToolResultV)

/-- One entry of `messages_history`. -/
structure Msg where
  role : String
  name : Option String
  tool_call_id : Option String
  content : MsgContent

/-- The decoded `arguments` payload of a tool call coming back from the
reasoning service: undecodable JSON, a well-typed mapping, or JSON that
decodes to something other than a mapping (list, string, number, ...). -/
inductive ArgPayload
  | bad
  | dict (a : ToolArgs)
  | nonMapping
deriving DecidableEq, Repr

/-- A structured (or content-recovered) tool call as dispatched by the loop. -/
structure ToolCallM where
  id : String
  name : String
  args : ArgPayload
deriving DecidableEq, Repr

/-- How the dispatch of the tool-call list of one turn ended. -/
inductive DispatchEnd
  | doneAll
  | returnedSaved
  | returnedEmpty
  | raisedErr
deriving DecidableEq, Repr

/-- Result of dispatching the tool-call list of one turn. -/
structure DispatchOut where
  /-- the `role: "tool"` messages appended to the history, in order -/
  msgs : List Msg
  collected : List DictS
  /-- ids of the invocations whose dispatch was reached (the `for tool_call`
  body entered), in order -/
  dispatched : List String
  /-- forced browser closes issued inside the dispatch (lines 809/813) -/
  closes : Nat
  ended : DispatchEnd

/-- The tool-call dispatch loop of one turn (lines 754-814).  Per call:
undecodable arguments append a plain error string and continue; a mapping is
executed through `_execute_tool_call`; a successful `finalize` result makes
the loop persist (or not) and return after a forced browser close; arguments
that decoded to a non-mapping raise `AttributeError` at the first
`tool_args.get` of the handler, which nothing catches before the pipeline-level
`except Exception`. -/
def dispatchCalls (collab : Collab) : List ToolCallM → List DictS → DispatchOut
  | [], collected => ⟨[], collected, [], 0, .doneAll⟩
  | tc :: rest, collected =>
    match tc.args with
    | .bad =>
        let m : Msg := ⟨"tool", some tc.name, some tc.id,
          .text ("Error: argument decoding failed for tool " ++ tc.name)⟩
        let o := dispatchCalls collab rest collected
        ⟨m :: o.msgs, o.collected, tc.id :: o.dispatched, o.closes, o.ended⟩
    | .nonMapping =>
        if tc.name ∈ handlerNames then
          -- AttributeError: the invocation is dispatched but no result is
          -- appended, and the remaining calls of the turn are skipped
          ⟨[], collected, [tc.id], 0, .raisedErr⟩
        else
          -- the unknown-tool branch returns before touching the arguments
          let m : Msg := ⟨"tool", some tc.name, some tc.id,
            .toolResult (.err ("Unknown tool " ++ tc.name))⟩
          let o := dispatchCalls collab rest collected
          ⟨m :: o.msgs, o.collected, tc.id :: o.dispatched, o.closes, o.ended⟩
    | .dict a =>
        let out := executeToolCall collab tc.name a collected
        let m : Msg := ⟨"tool", some tc.name, some tc.id, .toolResult out.result⟩
        if tc.name = "finalize_blog_data_collection" ∧
            out.result.statusOf = "success" then
          if out.collected.length > 0 then
            ⟨[m], out.collected, [tc.id], 1, .returnedSaved⟩
          else
            ⟨[m], out.collected, [tc.id], 1, .returnedEmpty⟩
        else
          let o := dispatchCalls collab rest out.collected
          ⟨m :: o.msgs, o.collected, tc.id :: o.dispatched, o.closes, o.ended⟩

/-- Exit path of the orchestration loop. -/
inductive ExitPath
  | finalizedSaved
  | finalizedEmpty
  | earlyBreak
  | turnCap
  | crashed
  | browserInitFailed
deriving DecidableEq, Repr

/-- Result of the turn loop proper (lines 595-814). -/
structure TurnsOut where
  exit : ExitPath
  turnsExecuted : Nat
  msgs : List Msg
  collected : List DictS
  /-- forced closes issued inside the loop body (lines 809/813) -/
  dispatchCloses : Nat

/-- The reasoning-service responses, already run through the response
interpreter: per turn, either a (possibly recovered-from-text) tool-call list
or nothing.  Python truthiness makes `None` and the empty list equal here, so
a no-op turn is `none` or `some []`. -/
def noToolCalls (r : Option (List ToolCallM)) : Bool :=
  match r with
  | none => true
  | some [] => true
  | some (_ :: _) => false

/-- The assistant message appended for a turn (its text content is irrelevant
to every history scan, which only looks at `role: "tool"` messages). -/
def assistantMsg : Msg := ⟨"assistant", none, none, .text ""⟩

/-- The `for turn_count in range(max_turns)` loop (lines 595-814). -/
def runTurns (collab : Collab) (respond : Nat → Option (List ToolCallM)) :
    Nat → Nat → List Msg → List DictS → TurnsOut
  | 0, _, msgs, collected => ⟨.turnCap, 0, msgs, collected, 0⟩
  | fuel + 1, turnIdx, msgs, collected =>
    let msgs1 := msgs ++ [assistantMsg]
    let r := respond turnIdx
    if noToolCalls r then
      ⟨.earlyBreak, 1, msgs1, collected, 0⟩
    else
      let o := dispatchCalls collab (r.getD []) collected
      let msgs2 := msgs1 ++ o.msgs
      match o.ended with
      | .doneAll =>
          let k := runTurns collab respond fuel (turnIdx + 1) msgs2 o.collected
          ⟨k.exit, k.turnsExecuted + 1, k.msgs, k.collected, o.closes + k.dispatchCloses⟩
      | .returnedSaved => ⟨.finalizedSaved, 1, msgs2, o.collected, o.closes⟩
      | .returnedEmpty => ⟨.finalizedEmpty, 1, msgs2, o.collected, o.closes⟩
      | .raisedErr => ⟨.crashed, 1, msgs2, o.collected, o.closes⟩

/-- The guard of the turn-cap recovery scan (lines 847-853): a history entry
contributes its URL list when it is a `search_web_for_blogs` tool result that
parses, has `status == "success"` and a truthy (non-empty) `found_urls`. -/
def searchHitUrls (m : Msg) : Option (List String) :=
  if m.role = "tool" ∧ m.name = some "search_web_for_blogs" then
    match m.content with
    | .toolResult (.searchOk urls _) => if urls ≠ [] then some urls else none
    | _ => none
  else none

/-- Insertion into the accumulated URL collection without duplicates
(`urls_found_in_history.update(...)` with `set` semantics). -/
def dedupInsert (acc : List String) (urls : List String) : List String :=
  urls.foldl (fun a u => if u ∈ a then a else a ++ [u]) acc

/-- One step of the recovery scan: merge the URLs of a contributing entry. -/
def collectStep (acc : List String) (m : Msg) : List String :=
  match searchHitUrls m with
  | some urls => dedupInsert acc urls
  | none => acc

/-- The history scan of the turn-cap recovery (lines 846-855): union of the
`found_urls` of every successful, non-empty `search_web_for_blogs` tool
result.  Python collects them in a `set`; the model keeps first-insertion
order, which preserves membership and cardinality. -/
def urlsFoundInHistory (msgs : List Msg) : List String :=
  msgs.foldl collectStep []

/-- The placeholder record appended per bare URL (lines 861-868). -/
def urlOnlyRecord (u : String) : DictS :=
  fun k =>
    if k = "blog_name" then some (.vStr "추출 실패 - URL만 확보")
    else if k = "url" then some (.vStr u)
    else if k = "blog_id" then some (.vStr "extraction-failed-url-only")
    else if k = "post_title" then some (.vStr "N/A")
    else if k = "recent_post_date" then some (.vStr "N/A")
    else if k = "total_posts" then some (.vStr "N/A")
    else none

/-- The placeholder records the turn-cap recovery persists (lines 857-873). -/
def recoveryRecords (msgs : List Msg) : List DictS :=
  (urlsFoundInHistory msgs).map urlOnlyRecord

/-- What the pipeline persisted at exit, with the filename tag it used
(`none` = nothing persisted, the pipeline returned `None`). -/
def Persisted := Option (List DictS × String)

/-- Configuration of one pipeline run. -/
structure RunConfig where
  maxTurns : Nat
  collab : Collab
  respond : Nat → Option (List ToolCallM)
  /-- oracle outcome of the browser initialisation block (lines 569-593),
  including the install-and-retry: `false` = `RuntimeError` -/
  initOk : Bool

/-- Observable outcome of one pipeline run. -/
structure RunOut where
  exit : ExitPath
  turnsExecuted : Nat
  msgs : List Msg
  collected : List DictS
  /-- total forced browser closes (`_maybe_close_browser(force_close=True)`)
  issued on this run: those inside the dispatch plus the `finally` -/
  forcedCloses : Nat
  persisted : Persisted

/-- Model of `AgentPipeline.run_agent_for_keywords`.  The `finally` block (lines
831-834) issues one forced close on every path that entered the `try`; the
finalize return paths have already issued one more (lines 809/813).  The
fall-through paths (early break, turn cap, caught generic exception) go on to
the partial-save / URL-recovery code (lines 836-875); the `RuntimeError` path
returns `None` directly. -/
def runAgent (cfg : RunConfig) : RunOut :=
  if ¬ cfg.initOk then
    ⟨.browserInitFailed, 0, [], [], 1, none⟩
  else
    let t := runTurns cfg.collab cfg.respond cfg.maxTurns 0 [] []
    let closes := t.dispatchCloses + 1
    match t.exit with
    | .finalizedSaved =>
        ⟨t.exit, t.turnsExecuted, t.msgs, t.collected, closes,
         some (t.collected, "agent_blog_data")⟩
    | .finalizedEmpty =>
        ⟨t.exit, t.turnsExecuted, t.msgs, t.collected, closes, none⟩
    | _ =>
        if ¬ t.collected.isEmpty then
          ⟨t.exit, t.turnsExecuted, t.msgs, t.collected, closes,
           some (t.collected, "agent_blog_data_partial")⟩
        else
          let recs := recoveryRecords t.msgs
          if ¬ recs.isEmpty then
            ⟨t.exit, t.turnsExecuted, t.msgs, t.collected, closes,
             some (recs, "agent_blog_data_urls_only")⟩
          else
            ⟨t.exit, t.turnsExecuted, t.msgs, t.collected, closes, none⟩

end Crawl

namespace Crawl

/-! ## The narrow extraction fallback of the response interpreter
(lines 675-722), reached when the earlier parse strategies produced nothing
and the text mentions `extract_blog_fields_from_text`. -/

/-- The history scan for the most recent successful fetch result (lines
684-694): first matching entry of the reversed history; an error envelope
does not stop the scan (its `status` is not `"success"`). -/
def recentFetchUrl (msgs : List Msg) : Option String :=
  msgs.reverse.findSome?
    (fun m =>
      if m.role = "tool" ∧ m.name = some "get_webpage_content_and_interact" then
        match m.content with
        | .toolResult (.fetchOk url final_url _ _ _ _ _ _ _ _) =>
            -- `tool_result.get("url") or tool_result.get("final_url")`
            some (if url ≠ "" then url else final_url)
        | _ => none
      else none)

/-- The processing of the regex-captured `text_content` value (lines
696-702): unescape `\n` and `\"`, truncate beyond 2000 characters. -/
def processFallbackText (t : String) : String :=
  let u : List Char := pyReplacePair '\\' '"' '"' (pyReplacePair '\\' 'n' '\n' t.toList)
  if u.length > 2000 then ⟨u.take 2000⟩ ++ "...[TRUNCATED]" else ⟨u⟩

/-- The invocation the narrow fallback synthesizes. -/
structure SynthesizedCall where
  name : String
  text_content : String
  original_url : String
deriving DecidableEq, Repr

/-- The narrow fallback itself (lines 676-722), given that the earlier
strategies failed.  `containsName` is the substring test for the extraction
tool name in the content; `textMatch` and `urlMatch` are the captures of the two regexes over
the content (`none` = no match).  The URL priority is: value from the text,
then the most recent successful fetch URL from the history, then the literal
`"unknown_url"`. -/
def specialExtractFallback (msgs : List Msg) (containsName : Bool)
    (textMatch urlMatch : Option String) : Option SynthesizedCall :=
  if ¬ containsName then none
  else
    match textMatch with
    | none => none
    | some t =>
        let url :=
          match urlMatch with
          | some u => u
          | none =>
              match recentFetchUrl msgs with
              | some r => if r ≠ "" then r else "unknown_url"
              | none => "unknown_url"
        some ⟨"extract_blog_fields_from_text", processFallbackText t, url⟩

end Crawl

namespace Crawl

/-! ## Derived observers and concrete run configurations used by the
theorems below -/

/-- Content-quality payload of a fetch success envelope (`content_quality`
of the serialised result). -/
def resultQuality : ToolResultV → Option ContentQuality
  | .fetchOk _ _ _ _ _ cq _ _ _ _ => some cq
  | _ => none

/-- The value normalisation the final pass applies to a single cell. -/
def normalizeNF (v : PyV) : PyV :=
  if needsNotFound (some v) then .vStr "Not Found" else v

/-- The value the alias mapping produces for a field: the first PRESENT
source-key value if non-empty (with the `total_posts` coercion), else the
given default. -/
def mappedFieldValue (raw : List (String × PyV)) (f : String) (srcs : List String)
    (base : PyV) : PyV :=
  (cellValue f raw srcs).getD base

/-- The record list a run persisted (empty when nothing was persisted). -/
def persistedRecords (o : RunOut) : List DictS :=
  match o.persisted with
  | some (l, _) => l
  | none => []

/-- The filename tag a run persisted under. -/
def persistedTag (o : RunOut) : Option String :=
  match o.persisted with
  | some (_, tag) => some tag
  | none => none

/-- A browse envelope for a collaborator that always fails. -/
def errBrowse : BrowseResult :=
  ⟨"error", "", "", "get_content", ⟨none, none, none⟩, "unreachable"⟩

/-- A collaborator bundle whose search finds nothing, whose browser always
fails and whose extraction LLM output never decodes. -/
def trivialCollab : Collab :=
  ⟨fun _ => [], fun _ => errBrowse, fun _ _ => .unparsable, none⟩

/-- Run configuration for a reasoning service that returns a no-op text turn
on every turn, with a turn cap of 3. -/
def noopCfg : RunConfig :=
  ⟨3, trivialCollab, fun _ => none, true⟩

/-- A dispatched invocation whose arguments decoded to a JSON list rather
than a mapping, naming a known tool. -/
def listArgsCall : ToolCallM :=
  ⟨"call1", "search_web_for_blogs", .nonMapping⟩

/-- Run configuration whose first turn requests `finalize` (with an empty
collection store). -/
def finalizeCfg : RunConfig :=
  ⟨2, trivialCollab,
   fun n => if n = 0 then some [⟨"f1", "finalize_blog_data_collection", .dict noArgs⟩]
            else none,
   true⟩

/-- A collaborator whose search returns two URLs. -/
def twoUrlCollab : Collab :=
  ⟨fun _ => ["https://a.com/1", "https://b.com/2"], fun _ => errBrowse,
   fun _ _ => .unparsable, none⟩

/-- Run configuration that performs one successful search (two URLs) and then
runs into the turn cap with an empty collection store. -/
def searchOnlyCfg : RunConfig :=
  ⟨1, twoUrlCollab,
   fun n => if n = 0 then
      some [⟨"s1", "search_web_for_blogs",
        .dict { noArgs with keyword := some "kw" }⟩]
    else none,
   true⟩

/-- A browse envelope that succeeds with 300 characters of text. -/
def goodBrowse : BrowseResult :=
  ⟨"success", "https://e.com/final", "A page", "get_content",
   ⟨some (String.mk (List.replicate 300 'a')), some "body", none⟩, ""⟩

/-- A browse oracle returning `goodBrowse` for every URL. -/
def goodBrowseOracle : String → BrowseResult := fun _ => goodBrowse

/-- Fetch arguments naming a well-formed URL. -/
def fetchArgsE : ToolArgs := { noArgs with url := some "https://e.com/x" }

/-- An escalation step that reports a returned envelope and leaves the store
unchanged. -/
def escReturn : String → String → List DictS → EscalationOutcome :=
  fun _ _ c => .returned c

/-- An escalation step whose inner call raised (confined by the `except` of
the fetch handler). -/
def escRaise : String → String → List DictS → EscalationOutcome :=
  fun _ _ c => .raised c

/-- The raw decoded extraction dict of the C8 counterexample: the first
accepted source key for the name field is present but empty, a later accepted
key holds a non-empty value. -/
def rawC8 : List (String × PyV) :=
  [("blog_name", .vStr ""), ("title", .vStr "Real Name")]

end Crawl

namespace Crawl

/-! ## General lemmas -/

/-- Application of an if-then-else of dicts, used to push lookups through
conditional updates. -/
theorem dictIteApp {c : Prop} [Decidable c] (a b : DictS) (k : String) :
    (if c then a else b) k = if c then a k else b k := by
  split <;> rfl

theorem pyReplaceChar_eq_map (old new : Char) (l : List Char) :
    pyReplaceChar old new l = l.map (fun c => if c = old then new else c) := by
  induction l with
  | nil => rfl
  | cons c cs ih => simp [pyReplaceChar, ih]

/-- The two sequential single-character replaces of `_derive_blog_id` equal
one combined character map. -/
theorem derive_host_maps (l : List Char) :
    pyReplaceChar '-' '_' (pyReplaceChar '.' '_' l) =
      l.map (fun c => if c = '.' ∨ c = '-' then '_' else c) := by
  simp only [pyReplaceChar_eq_map, List.map_map]
  refine List.map_congr_left (fun c _ => ?_)
  by_cases h1 : c = '.' <;> by_cases h2 : c = '-' <;> simp [h1, h2, Function.comp]

/-! ## Claim C5 — browser use count (code_bug)

The spec demands that the use count never go negative and be defensively
clamped to zero; the clamp in `_maybe_close_browser` sits in an `elif` after
the close branch, so every forced close at count ≤ 0 leaves a negative count
behind.  The failing input below is the lifecycle of the pipeline itself: one
`_ensure_browser` at start, then the two forced closes of the finalize exit
path. -/

/-- Claim C5: the browser-session use count never becomes negative, with
defensive clamping to zero.  The code violates this: after the pipelines
acquire + forced-close + forced-close sequence the stored count is -1, and
even a single forced release from a fresh controller leaves -1 (the clamping
`elif` is skipped whenever the close branch runs). -/
theorem browser_count_goes_negative :
    (runBrowserOps browserInit
      [.acquire true, .release true, .release true]).userCount = -1 ∧
    (runBrowserOps browserInit [.release true]).userCount = -1 ∧
    ¬ (0 ≤ (runBrowserOps browserInit
        [.acquire true, .release true, .release true]).userCount) := by
  refine ⟨by decide, by decide, by decide⟩

/-! ## Claim C9 — identifier derivation (corrected)

The code strips the scheme and appends the lowercased 20-character
alphanumeric name slug as the claim says, but (a) it removes EVERY occurrence
of `www.` in the host, not only a prefix, and (b) it replaces only `.` and
`-` by underscores, keeping all other non-alphanumeric host characters. -/

/-- Claim C9 counterexample: the code and the reference algorithm of the claim
disagree on a host with a port (the `:` survives in the code) and on a host
with an interior `www.` (removed by the code, kept by the reference). -/
theorem derive_blog_id_differs_from_claim_ref :
    deriveBlogId "https://example.com:8080/" (some "Test") = "example_com:8080_test" ∧
    deriveBlogIdClaimRef "https://example.com:8080/" (some "Test") =
      "example_com_8080_test" ∧
    deriveBlogId "http://a.www.b.com/" none = "a_b_com" ∧
    deriveBlogIdClaimRef "http://a.www.b.com/" none = "a_www_b_com" ∧
    deriveBlogId "https://example.com:8080/" (some "Test") ≠
      deriveBlogIdClaimRef "https://example.com:8080/" (some "Test") ∧
    deriveBlogId "http://a.www.b.com/" none ≠
      deriveBlogIdClaimRef "http://a.www.b.com/" none := by
  refine ⟨rfl, rfl, rfl, rfl, by decide, by decide⟩

/-- Claim C9 amended: the derivation is a deterministic pure function equal
to the amended reference algorithm — strip the scheme, remove every
occurrence of the substring `www.` from the host, replace only `.` and `-`
by underscores (other non-alphanumeric host characters are kept), and append
the slug of the first 20 alphanumeric characters of the lowercased name; in
particular deriving twice from the same pair yields the same identifier. -/
theorem derive_blog_id_matches_amended_ref (url : String) (name : Option String) :
    deriveBlogId url name = deriveBlogIdAmendedRef url name ∧
    deriveBlogId url name = deriveBlogId url name := by
  refine ⟨?_, rfl⟩
  simp only [deriveBlogId, deriveBlogIdAmendedRef, derive_host_maps]

end Crawl

namespace Crawl

/-- The band structure of the `quality_status` expression (line 164). -/
theorem qualityStatus_bands (n : Nat) :
    (n = 0 ↔ qualityStatus n = "empty") ∧
    (1 ≤ n ∧ n ≤ 99 ↔ qualityStatus n = "very_short") ∧
    (100 ≤ n ∧ n ≤ 299 ↔ qualityStatus n = "short") ∧
    (300 ≤ n ↔ qualityStatus n = "good") := by
  by_cases h3 : 300 ≤ n <;> by_cases h1 : 100 ≤ n <;> by_cases h0 : 0 < n <;>
    simp [qualityStatus, *] <;> omega

/-! ## Claim C3 — fetch classification and auto-escalation (confirmed)

The classification length is the length of the stripped fetched text (the
code computes `len(text_content.strip())`); the escalated text argument is
the first 5000 characters of the unstripped fetched text. -/

/-- Claim C3: for every successful fetch, the content classification follows
exactly the bands 0 = `empty`, 1-99 = `very_short`, 100-299 = `short`,
≥ 300 = `good`, and exactly one auto-escalated extraction invocation is made
when (and only when) the classification is `good`, its text argument bounded
to the first 5000 characters of the fetched text. -/
theorem fetch_classification (escalate : String → String → List DictS → EscalationOutcome)
    (browse : String → BrowseResult) (args : ToolArgs) (collected : List DictS)
    (u : String) (hu : args.url = some u) (hne : u ≠ "")
    (hscheme : strStarts u "http://" ∨ strStarts u "https://")
    (hok : (browse u).status = "success") :
    resultQuality (fetchTool escalate browse args collected).result =
      some ⟨(((browse u).data.text_content).getD "").trim.length,
            qualityStatus ((((browse u).data.text_content).getD "").trim.length),
            contentWarning ((((browse u).data.text_content).getD "").trim.length),
            ((browse u).data.used_selector).getD "unknown"⟩ ∧
    ((((browse u).data.text_content).getD "").trim.length = 0 ↔
       qualityStatus ((((browse u).data.text_content).getD "").trim.length) = "empty") ∧
    (1 ≤ (((browse u).data.text_content).getD "").trim.length ∧
       (((browse u).data.text_content).getD "").trim.length ≤ 99 ↔
       qualityStatus ((((browse u).data.text_content).getD "").trim.length) = "very_short") ∧
    (100 ≤ (((browse u).data.text_content).getD "").trim.length ∧
       (((browse u).data.text_content).getD "").trim.length ≤ 299 ↔
       qualityStatus ((((browse u).data.text_content).getD "").trim.length) = "short") ∧
    (300 ≤ (((browse u).data.text_content).getD "").trim.length ↔
       qualityStatus ((((browse u).data.text_content).getD "").trim.length) = "good") ∧
    (qualityStatus ((((browse u).data.text_content).getD "").trim.length) = "good" ↔
       (fetchTool escalate browse args collected).escalations =
         [⟨(((browse u).data.text_content).getD "").take 5000, u⟩]) ∧
    (qualityStatus ((((browse u).data.text_content).getD "").trim.length) ≠ "good" →
       (fetchTool escalate browse args collected).escalations = []) := by
  obtain ⟨b0, b1, b2, b3⟩ :=
    qualityStatus_bands ((((browse u).data.text_content).getD "").trim.length)
  refine ⟨?_, b0, b1, b2, b3, ?_, ?_⟩
  · by_cases hn : (((browse u).data.text_content).getD "").trim.length ≥ 300 <;>
      simp [fetchTool, hu, optTruthy, hne, hscheme, hok, hn, resultQuality]
  · by_cases hn : (((browse u).data.text_content).getD "").trim.length ≥ 300
    · simp [fetchTool, hu, optTruthy, hne, hscheme, hok, hn, qualityStatus]
    · simp [fetchTool, hu, optTruthy, hne, hscheme, hok, hn, qualityStatus]
      split_ifs <;> simp
  · intro hng
    have hn : ¬ ((((browse u).data.text_content).getD "").trim.length ≥ 300) := by
      intro hge
      exact hng (b3.mp hge)
    simp [fetchTool, hu, optTruthy, hne, hscheme, hok, hn]

/-- Claim C3 witness: a fetch of 300 characters of text classifies as `good`
and issues exactly one bounded escalation. -/
theorem fetch_classification_witness :
    fetchArgsE.url = some "https://e.com/x" ∧
    "https://e.com/x" ≠ "" ∧
    (strStarts "https://e.com/x" "http://" ∨ strStarts "https://e.com/x" "https://") ∧
    (goodBrowseOracle "https://e.com/x").status = "success" ∧
    (resultQuality (fetchTool escReturn goodBrowseOracle fetchArgsE []).result =
      some ⟨(((goodBrowseOracle "https://e.com/x").data.text_content).getD "").trim.length,
            qualityStatus ((((goodBrowseOracle "https://e.com/x").data.text_content).getD "").trim.length),
            contentWarning ((((goodBrowseOracle "https://e.com/x").data.text_content).getD "").trim.length),
            ((goodBrowseOracle "https://e.com/x").data.used_selector).getD "unknown"⟩ ∧
    ((((goodBrowseOracle "https://e.com/x").data.text_content).getD "").trim.length = 0 ↔
       qualityStatus ((((goodBrowseOracle "https://e.com/x").data.text_content).getD "").trim.length) = "empty") ∧
    (1 ≤ (((goodBrowseOracle "https://e.com/x").data.text_content).getD "").trim.length ∧
       (((goodBrowseOracle "https://e.com/x").data.text_content).getD "").trim.length ≤ 99 ↔
       qualityStatus ((((goodBrowseOracle "https://e.com/x").data.text_content).getD "").trim.length) = "very_short") ∧
    (100 ≤ (((goodBrowseOracle "https://e.com/x").data.text_content).getD "").trim.length ∧
       (((goodBrowseOracle "https://e.com/x").data.text_content).getD "").trim.length ≤ 299 ↔
       qualityStatus ((((goodBrowseOracle "https://e.com/x").data.text_content).getD "").trim.length) = "short") ∧
    (300 ≤ (((goodBrowseOracle "https://e.com/x").data.text_content).getD "").trim.length ↔
       qualityStatus ((((goodBrowseOracle "https://e.com/x").data.text_content).getD "").trim.length) = "good") ∧
    (qualityStatus ((((goodBrowseOracle "https://e.com/x").data.text_content).getD "").trim.length) = "good" ↔
       (fetchTool escReturn goodBrowseOracle fetchArgsE []).escalations =
         [⟨(((goodBrowseOracle "https://e.com/x").data.text_content).getD "").take 5000,
           "https://e.com/x"⟩]) ∧
    (qualityStatus ((((goodBrowseOracle "https://e.com/x").data.text_content).getD "").trim.length) ≠ "good" →
       (fetchTool escReturn goodBrowseOracle fetchArgsE []).escalations = [])) :=
  ⟨rfl, by decide, Or.inr (by decide), rfl,
   fetch_classification escReturn goodBrowseOracle fetchArgsE [] "https://e.com/x"
     rfl (by decide) (Or.inr (by decide)) rfl⟩

/-! ## Claim C10 — escalation failure containment (confirmed) -/

/-- Claim C10: for every fetch whose content classifies `good`, a failure of
the auto-escalated extraction (error envelope or a raised-and-caught
exception) does not change the result of the fetch itself: the result is independent
of the escalation outcome, still has status `success` and still carries its
content-quality payload (the hypotheses only require a successful fetch; for
non-`good` fetches no escalation happens at all, so independence holds there
too). -/
theorem escalation_failure_contained
    (esc1 esc2 : String → String → List DictS → EscalationOutcome)
    (browse : String → BrowseResult) (args : ToolArgs) (collected : List DictS)
    (u : String) (hu : args.url = some u) (hne : u ≠ "")
    (hscheme : strStarts u "http://" ∨ strStarts u "https://")
    (hok : (browse u).status = "success") :
    (fetchTool esc1 browse args collected).result =
      (fetchTool esc2 browse args collected).result ∧
    ((fetchTool esc1 browse args collected).result).statusOf = "success" ∧
    (resultQuality (fetchTool esc1 browse args collected).result).isSome = true ∧
    (fetchTool esc1 browse args collected).escalations =
      (fetchTool esc2 browse args collected).escalations := by
  by_cases hn : (((browse u).data.text_content).getD "").trim.length ≥ 300 <;>
    simp [fetchTool, hu, optTruthy, hne, hscheme, hok, hn, resultQuality,
      ToolResultV.statusOf]

/-- Claim C10 witness: a returned escalation and a raised escalation produce
the same successful fetch result on a 300-character page. -/
theorem escalation_failure_contained_witness :
    fetchArgsE.url = some "https://e.com/x" ∧
    "https://e.com/x" ≠ "" ∧
    (strStarts "https://e.com/x" "http://" ∨ strStarts "https://e.com/x" "https://") ∧
    (goodBrowseOracle "https://e.com/x").status = "success" ∧
    ((fetchTool escReturn goodBrowseOracle fetchArgsE []).result =
      (fetchTool escRaise goodBrowseOracle fetchArgsE []).result ∧
    ((fetchTool escReturn goodBrowseOracle fetchArgsE []).result).statusOf = "success" ∧
    (resultQuality (fetchTool escReturn goodBrowseOracle fetchArgsE []).result).isSome = true ∧
    (fetchTool escReturn goodBrowseOracle fetchArgsE []).escalations =
      (fetchTool escRaise goodBrowseOracle fetchArgsE []).escalations) :=
  ⟨rfl, by decide, Or.inr (by decide), rfl,
   escalation_failure_contained escReturn escRaise goodBrowseOracle fetchArgsE []
     "https://e.com/x" rfl (by decide) (Or.inr (by decide)) rfl⟩

end Crawl

namespace Crawl

/-! ## Claim C8 — field-alias mapping (corrected)

The inner loop of `structure_blog_info` breaks at the first PRESENT source
key; only afterwards does it test the value for non-emptiness.  A present but
empty first key therefore hides a non-empty later key, contradicting the
claimed "first non-empty value wins". -/

theorem mappingStep_ne (raw : List (String × PyV)) (m : DictS)
    (e : String × List String) (q : String) (h : q ≠ e.1) :
    mappingStep raw m e q = m q := by
  unfold mappingStep
  rw [dictIteApp]
  split
  · rcases h2 : cellValue e.1 raw e.2 with _ | w <;> simp [h2, dset, h]
  · rfl

theorem mappingStep_eq (raw : List (String × PyV)) (m : DictS)
    (e : String × List String) (hin : e.1 ∈ DATA_FIELDS) :
    mappingStep raw m e e.1 =
      (match cellValue e.1 raw e.2 with
       | some w => some w
       | none => m e.1) := by
  unfold mappingStep
  rw [dictIteApp]
  rcases h2 : cellValue e.1 raw e.2 with _ | w <;> simp [h2, dset, hin]

theorem foldl_mappingStep_ne (raw : List (String × PyV))
    (es : List (String × List String)) (m : DictS) (q : String)
    (h : ∀ e ∈ es, q ≠ e.1) :
    (es.foldl (mappingStep raw) m) q = m q := by
  induction es generalizing m with
  | nil => rfl
  | cons e es ih =>
    simp only [List.foldl_cons]
    rw [ih _ (fun x hx => h x (List.mem_cons_of_mem _ hx)),
      mappingStep_ne raw m e q (h e (List.mem_cons_self _ _))]

/-- Value of the alias-mapping fold at the target of one table row, when the
other rows target different fields. -/
theorem mapped_at (raw : List (String × PyV)) (init : DictS)
    (l1 l2 : List (String × List String)) (e : String × List String)
    (hin : e.1 ∈ DATA_FIELDS)
    (h1 : ∀ x ∈ l1, e.1 ≠ x.1) (h2 : ∀ x ∈ l2, e.1 ≠ x.1) :
    ((l1 ++ e :: l2).foldl (mappingStep raw) init) e.1 =
      (match cellValue e.1 raw e.2 with
       | some w => some w
       | none => init e.1) := by
  rw [List.foldl_append, List.foldl_cons, foldl_mappingStep_ne raw l2 _ _ h2,
    mappingStep_eq raw _ e hin, foldl_mappingStep_ne raw l1 init e.1 h1]

theorem finalStep_at_ne (m : DictS) (f q : String) (h : q ≠ f) :
    finalStep m f q = m q := by
  unfold finalStep
  rw [dictIteApp]
  split <;> simp [dset, h]

/-- Value of the final normalisation pass at a field. -/
theorem foldl_finalStep_at (fs : List String) (m : DictS) (q : String) :
    (fs.foldl finalStep m) q =
      if q ∈ fs ∧ needsNotFound (m q) then some (.vStr "Not Found") else m q := by
  induction fs generalizing m with
  | nil => simp
  | cons f fs ih =>
    simp only [List.foldl_cons, ih]
    by_cases hqf : q = f
    · subst hqf
      by_cases hb : needsNotFound (m q) = true
      · have hstep : finalStep m q = dset m q (.vStr "Not Found") := by
          unfold finalStep
          rw [if_pos hb]
        rw [hstep]
        have hval : dset m q (.vStr "Not Found") q = some (.vStr "Not Found") := by
          simp [dset]
        rw [hval]
        have h1 : ¬ (q ∈ fs ∧ needsNotFound (some (PyV.vStr "Not Found")) = true) := by
          simp [needsNotFound]
        rw [if_neg h1, if_pos (And.intro (List.mem_cons_self q fs) hb)]
      · have hstep : finalStep m q = m := by
          unfold finalStep
          rw [if_neg hb]
        rw [hstep]
        simp [List.mem_cons, hb]
    · rw [finalStep_at_ne m f q hqf]
      simp [List.mem_cons, hqf]

theorem initStructured_at (url : String) (f : String) (hf : f ∈ DATA_FIELDS)
    (h : f ≠ "blog_url") : initStructured url f = some (.vStr "Not Found") := by
  simp [initStructured, dset, h, hf]

theorem initStructured_at_url (url : String) :
    initStructured url "blog_url" = some (.vStr url) := by
  simp [initStructured, dset]

/-- The structured record at an ordinary mapped field (not `blog_id`, not
`blog_url`): the first present source value, kept if non-empty, else the
sentinel, with the final normalisation applied. -/
theorem structure_at_field (raw : List (String × PyV)) (url : String)
    (l1 l2 : List (String × List String)) (e : String × List String)
    (hin : e.1 ∈ DATA_FIELDS) (hid : e.1 ≠ "blog_id") (hurl : e.1 ≠ "blog_url")
    (htab : fieldMappingTable = l1 ++ e :: l2)
    (h1 : ∀ x ∈ l1, e.1 ≠ x.1) (h2 : ∀ x ∈ l2, e.1 ≠ x.1) :
    structureBlogInfo (some raw) url e.1 =
      some (normalizeNF (mappedFieldValue raw e.1 e.2 (.vStr "Not Found"))) := by
  unfold structureBlogInfo finalPass
  dsimp only
  rw [foldl_finalStep_at]
  have hq : ∀ v, dset (fieldMappingTable.foldl (mappingStep raw) (initStructured url))
      "blog_id" v e.1 =
      (fieldMappingTable.foldl (mappingStep raw) (initStructured url)) e.1 := by
    intro v
    simp [dset, hid]
  rw [hq]
  have hA : (fieldMappingTable.foldl (mappingStep raw) (initStructured url)) e.1 =
      (match cellValue e.1 raw e.2 with
       | some w => some w
       | none => initStructured url e.1) := by
    rw [htab]
    exact mapped_at raw (initStructured url) l1 l2 e hin h1 h2
  rw [hA, initStructured_at url e.1 hin hurl]
  rcases hcv : cellValue e.1 raw e.2 with _ | w
  · simp [mappedFieldValue, hcv, normalizeNF, needsNotFound, hin]
  · simp only [mappedFieldValue, hcv, Option.getD_some]
    by_cases hb : needsNotFound (some w) = true
    · simp [normalizeNF, hb, hin]
    · simp [normalizeNF, hb, hin]

/-- The structured record at `blog_url`: as at the other fields, except that
the fallback value is the URL argument of the call, not the sentinel. -/
theorem structure_at_blog_url (raw : List (String × PyV)) (url : String) :
    structureBlogInfo (some raw) url "blog_url" =
      some (normalizeNF (mappedFieldValue raw "blog_url" tabBlogUrl.2 (.vStr url))) := by
  unfold structureBlogInfo finalPass
  dsimp only
  rw [foldl_finalStep_at]
  have hq : ∀ v, dset (fieldMappingTable.foldl (mappingStep raw) (initStructured url))
      "blog_id" v "blog_url" =
      (fieldMappingTable.foldl (mappingStep raw) (initStructured url)) "blog_url" := by
    intro v
    simp [dset]
  rw [hq]
  have hA : (fieldMappingTable.foldl (mappingStep raw) (initStructured url)) "blog_url" =
      (match cellValue "blog_url" raw tabBlogUrl.2 with
       | some w => some w
       | none => initStructured url "blog_url") := by
    exact mapped_at raw (initStructured url) [tabBlogName]
      [tabRecent, tabFirst, tabTotal, tabCreation, tabVisitors, tabSummary]
      tabBlogUrl (by decide) (by decide) (by decide)
  rw [hA, initStructured_at_url url]
  have hmem : "blog_url" ∈ DATA_FIELDS := by decide
  rcases hcv : cellValue "blog_url" raw tabBlogUrl.2 with _ | w
  · simp only [mappedFieldValue, hcv, Option.getD_none]
    by_cases hb : needsNotFound (some (PyV.vStr url)) = true
    · simp [normalizeNF, hb, hmem]
    · simp [normalizeNF, hb, hmem]
  · simp only [mappedFieldValue, hcv, Option.getD_some]
    by_cases hb : needsNotFound (some w) = true
    · simp [normalizeNF, hb, hmem]
    · simp [normalizeNF, hb, hmem]

/-- The structured record at `blog_id`: not alias-mapped at all, but derived
from the URL and the mapped name value. -/
theorem structure_at_blog_id (raw : List (String × PyV)) (url : String) :
    structureBlogInfo (some raw) url "blog_id" =
      some (normalizeNF (.vStr (deriveBlogIdPy url
        (mappedFieldValue raw "blog_name" tabBlogName.2 (.vStr "Not Found"))))) := by
  unfold structureBlogInfo finalPass
  dsimp only
  rw [foldl_finalStep_at]
  have hq : ∀ v, dset (fieldMappingTable.foldl (mappingStep raw) (initStructured url))
      "blog_id" v "blog_id" = some v := by
    intro v
    simp [dset]
  rw [hq]
  have hA : (fieldMappingTable.foldl (mappingStep raw) (initStructured url)) "blog_name" =
      (match cellValue "blog_name" raw tabBlogName.2 with
       | some w => some w
       | none => initStructured url "blog_name") := by
    exact mapped_at raw (initStructured url) []
      [tabBlogUrl, tabRecent, tabFirst, tabTotal, tabCreation, tabVisitors, tabSummary]
      tabBlogName (by decide) (by decide) (by decide)
  rw [hA]
  have hinit : initStructured url "blog_name" = some (.vStr "Not Found") :=
    initStructured_at url "blog_name" (by decide) (by decide)
  rw [hinit]
  have hmem : "blog_id" ∈ DATA_FIELDS := by decide
  rcases hcv : cellValue "blog_name" raw tabBlogName.2 with _ | w
  · simp only [mappedFieldValue, hcv, Option.getD_none]
    by_cases hb : needsNotFound
        (some (PyV.vStr (deriveBlogIdPy url (PyV.vStr "Not Found")))) = true
    · simp [normalizeNF, hb, hmem]
    · simp [normalizeNF, hb, hmem]
  · simp only [mappedFieldValue, hcv, Option.getD_some]
    by_cases hb : needsNotFound (some (PyV.vStr (deriveBlogIdPy url w))) = true
    · simp [normalizeNF, hb, hmem]
    · simp [normalizeNF, hb, hmem]

end Crawl

namespace Crawl

/-- Claim C8 counterexample: with `blog_name` present but empty and `title`
holding `"Real Name"`, the code stops at the first present key and yields the
sentinel, while the claimed first-non-empty rule yields `"Real Name"`. -/
theorem structure_first_present_not_first_nonempty :
    structureBlogInfo (some rawC8) "http://ex.com" "blog_name" =
      some (.vStr "Not Found") ∧
    claimFieldRule rawC8 tabBlogName.2 = .vStr "Real Name" ∧
    structureBlogInfo (some rawC8) "http://ex.com" "blog_name" ≠
      some (claimFieldRule rawC8 tabBlogName.2) := by
  refine ⟨by decide, by decide, by decide⟩

/-- Claim C8 amended: for every decoded extraction mapping, each canonical
field takes the value of the FIRST PRESENT accepted source key if that
value is non-empty (with `total_posts` string-coerced and a final
normalisation replacing `None`/empty values with the sentinel); if the first
value of the first present key is empty, or no accepted key is present, the field is the
"not found" sentinel — later keys are not consulted once an earlier one is
present.  Exceptions: `blog_url` falls back to the URL argument of the call
instead of the sentinel, and `blog_id` is not alias-mapped but derived from
the URL and the mapped name value. -/
theorem field_alias_mapping_amended (raw : List (String × PyV)) (url : String) :
    structureBlogInfo (some raw) url "blog_name" =
      some (normalizeNF (mappedFieldValue raw "blog_name" tabBlogName.2
        (.vStr "Not Found"))) ∧
    structureBlogInfo (some raw) url "recent_post_date" =
      some (normalizeNF (mappedFieldValue raw "recent_post_date" tabRecent.2
        (.vStr "Not Found"))) ∧
    structureBlogInfo (some raw) url "first_post_date" =
      some (normalizeNF (mappedFieldValue raw "first_post_date" tabFirst.2
        (.vStr "Not Found"))) ∧
    structureBlogInfo (some raw) url "total_posts" =
      some (normalizeNF (mappedFieldValue raw "total_posts" tabTotal.2
        (.vStr "Not Found"))) ∧
    structureBlogInfo (some raw) url "blog_creation_date" =
      some (normalizeNF (mappedFieldValue raw "blog_creation_date" tabCreation.2
        (.vStr "Not Found"))) ∧
    structureBlogInfo (some raw) url "average_visitors" =
      some (normalizeNF (mappedFieldValue raw "average_visitors" tabVisitors.2
        (.vStr "Not Found"))) ∧
    structureBlogInfo (some raw) url "llm_summary" =
      some (normalizeNF (mappedFieldValue raw "llm_summary" tabSummary.2
        (.vStr "Not Found"))) ∧
    structureBlogInfo (some raw) url "blog_url" =
      some (normalizeNF (mappedFieldValue raw "blog_url" tabBlogUrl.2 (.vStr url))) ∧
    structureBlogInfo (some raw) url "blog_id" =
      some (normalizeNF (.vStr (deriveBlogIdPy url
        (mappedFieldValue raw "blog_name" tabBlogName.2 (.vStr "Not Found"))))) := by
  refine ⟨?_, ?_, ?_, ?_, ?_, ?_, ?_, ?_, ?_⟩
  · exact structure_at_field raw url []
      [tabBlogUrl, tabRecent, tabFirst, tabTotal, tabCreation, tabVisitors, tabSummary]
      tabBlogName (by decide) (by decide) (by decide) rfl (by decide) (by decide)
  · exact structure_at_field raw url [tabBlogName, tabBlogUrl]
      [tabFirst, tabTotal, tabCreation, tabVisitors, tabSummary]
      tabRecent (by decide) (by decide) (by decide) rfl (by decide) (by decide)
  · exact structure_at_field raw url [tabBlogName, tabBlogUrl, tabRecent]
      [tabTotal, tabCreation, tabVisitors, tabSummary]
      tabFirst (by decide) (by decide) (by decide) rfl (by decide) (by decide)
  · exact structure_at_field raw url [tabBlogName, tabBlogUrl, tabRecent, tabFirst]
      [tabCreation, tabVisitors, tabSummary]
      tabTotal (by decide) (by decide) (by decide) rfl (by decide) (by decide)
  · exact structure_at_field raw url
      [tabBlogName, tabBlogUrl, tabRecent, tabFirst, tabTotal]
      [tabVisitors, tabSummary]
      tabCreation (by decide) (by decide) (by decide) rfl (by decide) (by decide)
  · exact structure_at_field raw url
      [tabBlogName, tabBlogUrl, tabRecent, tabFirst, tabTotal, tabCreation]
      [tabSummary]
      tabVisitors (by decide) (by decide) (by decide) rfl (by decide) (by decide)
  · exact structure_at_field raw url
      [tabBlogName, tabBlogUrl, tabRecent, tabFirst, tabTotal, tabCreation, tabVisitors]
      []
      tabSummary (by decide) (by decide) (by decide) rfl (by decide) (by decide)
  · exact structure_at_blog_url raw url
  · exact structure_at_blog_id raw url

end Crawl

namespace Crawl

/-! ## Claim C6 — narrow extraction fallback (corrected)

When only `text_content` is recoverable the fallback does NOT emit zero
invocations: it falls back to the most recent successful fetch URL from the
history, or to the literal `"unknown_url"`. -/

/-- Claim C6 counterexample: recoverable `text_content`, no `url` in the text,
empty history — the fallback still synthesizes one invocation (with the
sentinel URL), while the claim requires zero. -/
theorem fallback_synthesizes_without_url :
    specialExtractFallback [] true (some "hello") none =
      some ⟨"extract_blog_fields_from_text", "hello", "unknown_url"⟩ ∧
    specialExtractFallback [] true (some "hello") none ≠ none := by
  refine ⟨by decide, by decide⟩

/-- Claim C6 amended: for an assistant text whose only recognizable tool
reference is the extraction tool and on which the earlier strategies failed,
the fallback synthesizes exactly one invocation iff a `text_content` value is
regex-recoverable; its URL is the recovered `url` value if present, else the
most recent successful fetch URL from the history, else `"unknown_url"`; with
no recoverable `text_content` (or no tool reference) zero invocations are
synthesized. -/
theorem fallback_amended (msgs : List Msg) (textMatch urlMatch : Option String) :
    ((specialExtractFallback msgs true textMatch urlMatch).isSome ↔ textMatch.isSome) ∧
    (∀ t, textMatch = some t →
      specialExtractFallback msgs true textMatch urlMatch =
        some ⟨"extract_blog_fields_from_text", processFallbackText t,
          (match urlMatch with
           | some u => u
           | none =>
               match recentFetchUrl msgs with
               | some r => if r ≠ "" then r else "unknown_url"
               | none => "unknown_url")⟩) ∧
    specialExtractFallback msgs false textMatch urlMatch = none := by
  refine ⟨?_, ?_, ?_⟩
  · cases textMatch <;> simp [specialExtractFallback]
  · intro t ht
    subst ht
    simp [specialExtractFallback]
  · simp [specialExtractFallback]

/-- Claim C6 witness: both values recoverable — exactly one invocation with
the recovered URL. -/
theorem fallback_amended_witness :
    (some "x" : Option String) = some "x" ∧
    specialExtractFallback [] true (some "x") (some "http://u.com") =
      some ⟨"extract_blog_fields_from_text", processFallbackText "x", "http://u.com"⟩ :=
  ⟨rfl, (fallback_amended [] (some "x") (some "http://u.com")).2.1 "x" rfl⟩

end Crawl

namespace Crawl

/-! ## Claim C1 — turn cap on no-op turns (corrected)

The loop does not run to the turn cap on all-no-op turns: line 750 breaks out
of the turn loop on the FIRST turn that yields no invocations. -/

/-- Claim C1 counterexample: with a turn cap of 3 and a reasoning service
that returns a no-op text turn on every turn, the loop executes exactly one
turn and exits through the early break, not through the turn cap. -/
theorem noop_turns_break_first_turn :
    (runAgent noopCfg).turnsExecuted = 1 ∧
    (runAgent noopCfg).exit = ExitPath.earlyBreak ∧
    noopCfg.maxTurns = 3 ∧
    (runAgent noopCfg).turnsExecuted ≠ noopCfg.maxTurns := by
  refine ⟨by decide, by decide, by decide, by decide⟩

/-- Claim C1 amended: if the reasoning service returns a no-op text turn on
every turn (no structured tool calls, nothing recoverable from the text) and
the turn cap is at least 1, the loop exits after exactly ONE turn via the
graceful early break, never reaching the turn cap. -/
theorem noop_turns_amended (cfg : RunConfig) (h1 : 1 ≤ cfg.maxTurns)
    (h2 : ∀ n, noToolCalls (cfg.respond n) = true) (h3 : cfg.initOk = true) :
    (runAgent cfg).turnsExecuted = 1 ∧ (runAgent cfg).exit = ExitPath.earlyBreak := by
  obtain ⟨m, hm⟩ : ∃ m, cfg.maxTurns = m + 1 := ⟨cfg.maxTurns - 1, by omega⟩
  unfold runAgent
  rw [if_neg (by simp [h3])]
  rw [hm]
  unfold runTurns
  rw [if_pos (h2 0)]
  refine ⟨?_, ?_⟩ <;> rfl

/-- Claim C1 witness: the amended statement at the concrete no-op
configuration. -/
theorem noop_turns_amended_witness :
    1 ≤ noopCfg.maxTurns ∧
    ((runAgent noopCfg).turnsExecuted = 1 ∧
     (runAgent noopCfg).exit = ExitPath.earlyBreak) :=
  ⟨by decide, noop_turns_amended noopCfg (by decide) (fun _ => rfl) rfl⟩

/-! ## Claim C2 — one ToolResult per dispatched invocation (corrected)

Undecodable arguments and unknown tool names do get exactly one result, but
arguments that JSON-decode to a non-mapping value (a list, a number, ...)
reach the handler, whose first `tool_args.get` raises an uncaught
`AttributeError`: that invocation gets ZERO results and the loop aborts. -/

/-- Claim C2 counterexample: one dispatched invocation of a known tool whose
arguments decoded to a JSON list — no ToolResult is appended for it and the
dispatch ends in a raised error. -/
theorem nonmapping_args_drop_result :
    (dispatchCalls trivialCollab [listArgsCall] []).dispatched = ["call1"] ∧
    (dispatchCalls trivialCollab [listArgsCall] []).msgs.length = 0 ∧
    (dispatchCalls trivialCollab [listArgsCall] []).ended = DispatchEnd.raisedErr ∧
    (dispatchCalls trivialCollab [listArgsCall] []).msgs.length ≠
      (dispatchCalls trivialCollab [listArgsCall] []).dispatched.length := by
  refine ⟨by decide, by decide, by decide, by decide⟩

/-- Claim C2 amended: for every dispatched invocation whose arguments either
fail to decode, or decode to a well-typed mapping, or that names an unknown
tool, exactly one ToolResult is appended to the conversation state per
invocation, in order and with matching invocation id — the invariant holds
for all dispatches containing no known-tool invocation with non-mapping
arguments. -/
theorem one_result_per_dispatched_invocation (collab : Collab)
    (calls : List ToolCallM) (collected : List DictS)
    (h : ∀ tc ∈ calls, tc.args = ArgPayload.nonMapping → ¬ tc.name ∈ handlerNames) :
    ((dispatchCalls collab calls collected).msgs.map Msg.tool_call_id) =
      ((dispatchCalls collab calls collected).dispatched.map some) ∧
    (dispatchCalls collab calls collected).msgs.length =
      (dispatchCalls collab calls collected).dispatched.length := by
  have main : ((dispatchCalls collab calls collected).msgs.map Msg.tool_call_id) =
      ((dispatchCalls collab calls collected).dispatched.map some) := by
    induction calls generalizing collected with
    | nil => rfl
    | cons tc rest ih =>
      have hrest : ∀ x ∈ rest, x.args = ArgPayload.nonMapping → ¬ x.name ∈ handlerNames :=
        fun x hx => h x (List.mem_cons_of_mem _ hx)
      rcases harg : tc.args with _ | a | _
      · simp only [dispatchCalls, harg, List.map_cons]
        rw [ih collected hrest]
      · by_cases hf : tc.name = "finalize_blog_data_collection" ∧
            (executeToolCall collab tc.name a collected).result.statusOf = "success"
        · simp only [dispatchCalls, harg, if_pos hf]
          split <;> rfl
        · simp only [dispatchCalls, harg, if_neg hf, List.map_cons]
          rw [ih _ hrest]
      · have hn : ¬ tc.name ∈ handlerNames := h tc (List.mem_cons_self _ _) harg
        simp only [dispatchCalls, harg, if_neg hn, List.map_cons]
        rw [ih collected hrest]
  refine ⟨main, ?_⟩
  have := congrArg List.length main
  simpa using this

/-- Concrete dispatch list for the C2 witness: an undecodable-argument call,
a well-typed search call and an unknown tool with non-mapping arguments. -/
def w2calls : List ToolCallM :=
  [⟨"a", "nonexistent_tool", .bad⟩,
   ⟨"b", "search_web_for_blogs", .dict { noArgs with keyword := some "k" }⟩,
   ⟨"c", "bogus_tool", .nonMapping⟩]

/-- Claim C2 witness: the amended cardinality invariant on a concrete
three-invocation dispatch. -/
theorem one_result_per_dispatched_invocation_witness :
    (∀ tc ∈ w2calls, tc.args = ArgPayload.nonMapping → ¬ tc.name ∈ handlerNames) ∧
    ((dispatchCalls trivialCollab w2calls []).msgs.map Msg.tool_call_id) =
      ((dispatchCalls trivialCollab w2calls []).dispatched.map some) :=
  ⟨by decide,
   (one_result_per_dispatched_invocation trivialCollab w2calls [] (by decide)).1⟩

end Crawl

namespace Crawl

/-! ## Claim C4 — forced browser release exactly once (corrected)

Every exit path that entered the `try` issues the forced close in the
`finally` block; the finalize return paths (lines 809/813) ALSO issue one
forced close right before returning, so the successful-finalize exits issue
it twice. -/

/-- The closes issued inside the dispatch of one turn are exactly one on the
finalize return paths sub zero otherwise. -/
theorem dispatch_closes (collab : Collab) (calls : List ToolCallM)
    (collected : List DictS) :
    (dispatchCalls collab calls collected).closes =
      (match (dispatchCalls collab calls collected).ended with
       | .returnedSaved => 1
       | .returnedEmpty => 1
       | _ => 0) := by
  induction calls generalizing collected with
  | nil => rfl
  | cons tc rest ih =>
    rcases harg : tc.args with _ | a | _
    · simp only [dispatchCalls, harg]
      exact ih collected
    · by_cases hf : tc.name = "finalize_blog_data_collection" ∧
          (executeToolCall collab tc.name a collected).result.statusOf = "success"
      · simp only [dispatchCalls, harg, if_pos hf]
        split <;> rfl
      · simp only [dispatchCalls, harg, if_neg hf]
        exact ih _
    · by_cases hn : tc.name ∈ handlerNames
      · simp only [dispatchCalls, harg, if_pos hn]
      · simp only [dispatchCalls, harg, if_neg hn]
        exact ih collected

/-- The closes issued inside the turn loop are exactly one on the finalize
exits and zero otherwise. -/
theorem turns_closes (collab : Collab) (respond : Nat → Option (List ToolCallM))
    (fuel idx : Nat) (msgs : List Msg) (collected : List DictS) :
    (runTurns collab respond fuel idx msgs collected).dispatchCloses =
      (match (runTurns collab respond fuel idx msgs collected).exit with
       | .finalizedSaved => 1
       | .finalizedEmpty => 1
       | _ => 0) := by
  induction fuel generalizing idx msgs collected with
  | zero => rfl
  | succ n ih =>
    by_cases hr : noToolCalls (respond idx) = true
    · simp only [runTurns, if_pos hr]
    · simp only [runTurns, if_neg hr]
      rcases he : (dispatchCalls collab ((respond idx).getD []) collected).ended
      · have hd := dispatch_closes collab ((respond idx).getD []) collected
        rw [he] at hd
        simp only [he, hd, ih]
        omega
      · have hd := dispatch_closes collab ((respond idx).getD []) collected
        rw [he] at hd
        simp only [he, hd]
      · have hd := dispatch_closes collab ((respond idx).getD []) collected
        rw [he] at hd
        simp only [he, hd]
      · have hd := dispatch_closes collab ((respond idx).getD []) collected
        rw [he] at hd
        simp only [he, hd]

/-- Claim C4 counterexample: a run that exits through a successful
`finalize` issues the forced browser release twice (once on the return path,
once in the cleanup handler), not exactly once. -/
theorem finalize_exit_double_forced_close :
    (runAgent finalizeCfg).exit = ExitPath.finalizedEmpty ∧
    (runAgent finalizeCfg).forcedCloses = 2 ∧
    (runAgent finalizeCfg).forcedCloses ≠ 1 := by
  refine ⟨by decide, by decide, by decide⟩

/-- Claim C4 amended: the forced browser release is issued at least once on
every exit path — exactly once on the early-break, turn-cap, uncaught
exception and failed-initialisation paths, and exactly twice on the two
finalize exit paths. -/
theorem forced_close_count_by_exit_path (cfg : RunConfig) :
    (runAgent cfg).forcedCloses =
      (match (runAgent cfg).exit with
       | .finalizedSaved => 2
       | .finalizedEmpty => 2
       | _ => 1) ∧
    1 ≤ (runAgent cfg).forcedCloses := by
  by_cases hi : cfg.initOk = true
  · have hcl := turns_closes cfg.collab cfg.respond cfg.maxTurns 0 [] []
    unfold runAgent
    rw [if_neg (by simp [hi])]
    rcases he : (runTurns cfg.collab cfg.respond cfg.maxTurns 0 [] []).exit
    · rw [he] at hcl
      simp [he, hcl]
    · rw [he] at hcl
      simp [he, hcl]
    · rw [he] at hcl
      simp only [he, hcl]
      split <;> (try split) <;> simp_all
    · rw [he] at hcl
      simp only [he, hcl]
      split <;> (try split) <;> simp_all
    · rw [he] at hcl
      simp only [he, hcl]
      split <;> (try split) <;> simp_all
    · rw [he] at hcl
      simp only [he, hcl]
      split <;> (try split) <;> simp_all
  · unfold runAgent
    rw [if_pos (by simp [hi])]
    exact ⟨rfl, Nat.le_refl 1⟩

end Crawl

namespace Crawl

/-! ## Claim C7 — turn-cap placeholder recovery (corrected)

The recovery persists one placeholder per distinct bare URL, but the
sentinel identifier is the literal `"extraction-failed-url-only"` (not
`"extraction-failed"`), the name field carries a human-readable failure
label, the populated data fields carry `"N/A"`, and the remaining canonical
fields are absent from the record rather than sentinel-valued. -/

theorem mem_dedupInsert (urls : List String) (acc : List String) (u : String) :
    u ∈ dedupInsert acc urls ↔ u ∈ acc ∨ u ∈ urls := by
  induction urls generalizing acc with
  | nil => simp [dedupInsert]
  | cons v vs ih =>
    have hstep : dedupInsert acc (v :: vs) =
        dedupInsert (if v ∈ acc then acc else acc ++ [v]) vs := rfl
    rw [hstep]
    by_cases hv : v ∈ acc
    · rw [if_pos hv, ih acc]
      simp only [List.mem_cons]
      constructor
      · rintro (h | h)
        · exact Or.inl h
        · exact Or.inr (Or.inr h)
      · rintro (h | h | h)
        · exact Or.inl h
        · exact Or.inl (h ▸ hv)
        · exact Or.inr h
    · rw [if_neg hv, ih (acc ++ [v])]
      simp only [List.mem_append, List.mem_singleton, List.mem_cons]
      tauto

theorem nodup_dedupInsert (urls : List String) (acc : List String)
    (h : acc.Nodup) : (dedupInsert acc urls).Nodup := by
  induction urls generalizing acc with
  | nil => exact h
  | cons v vs ih =>
    have hstep : dedupInsert acc (v :: vs) =
        dedupInsert (if v ∈ acc then acc else acc ++ [v]) vs := rfl
    rw [hstep]
    by_cases hv : v ∈ acc
    · rw [if_pos hv]
      exact ih acc h
    · rw [if_neg hv]
      refine ih (acc ++ [v]) ?_
      simp [List.nodup_append, h, hv]

/-- Membership in the accumulated URL collection of the recovery scan. -/
theorem mem_collectFold (msgs : List Msg) (acc : List String) (u : String) :
    u ∈ msgs.foldl collectStep acc ↔
      u ∈ acc ∨ ∃ m ∈ msgs, ∃ urls, searchHitUrls m = some urls ∧ u ∈ urls := by
  induction msgs generalizing acc with
  | nil => simp
  | cons m rest ih =>
    simp only [List.foldl_cons]
    rcases hs : searchHitUrls m with _ | urls
    · have hstep : collectStep acc m = acc := by simp [collectStep, hs]
      rw [hstep, ih acc]
      simp only [List.exists_mem_cons_iff, hs]
      constructor
      · rintro (h | h)
        · exact Or.inl h
        · exact Or.inr (Or.inr h)
      · rintro (h | ⟨urls, hu, _⟩ | h)
        · exact Or.inl h
        · cases hu
        · exact Or.inr h
    · have hstep : collectStep acc m = dedupInsert acc urls := by simp [collectStep, hs]
      rw [hstep, ih _]
      rw [mem_dedupInsert]
      simp only [List.exists_mem_cons_iff, hs]
      constructor
      · rintro ((h | h) | h)
        · exact Or.inl h
        · exact Or.inr (Or.inl ⟨urls, rfl, h⟩)
        · exact Or.inr (Or.inr h)
      · rintro (h | ⟨urls2, hu, hm⟩ | h)
        · exact Or.inl (Or.inl h)
        · cases hu
          exact Or.inl (Or.inr hm)
        · exact Or.inr h

theorem nodup_collectFold (msgs : List Msg) (acc : List String) (h : acc.Nodup) :
    (msgs.foldl collectStep acc).Nodup := by
  induction msgs generalizing acc with
  | nil => exact h
  | cons m rest ih =>
    simp only [List.foldl_cons]
    rcases hs : searchHitUrls m with _ | urls
    · have hstep : collectStep acc m = acc := by simp [collectStep, hs]
      rw [hstep]
      exact ih acc h
    · have hstep : collectStep acc m = dedupInsert acc urls := by simp [collectStep, hs]
      rw [hstep]
      exact ih _ (nodup_dedupInsert urls acc h)

/-- Claim C7 counterexample: turn cap reached after one successful search
with two URLs and no extraction — the run persists exactly two placeholder
records, but their identifier is `"extraction-failed-url-only"`, not the
`"extraction-failed"` the claim states. -/
theorem placeholder_sentinel_differs :
    (runAgent searchOnlyCfg).exit = ExitPath.turnCap ∧
    (persistedRecords (runAgent searchOnlyCfg)).length = 2 ∧
    persistedTag (runAgent searchOnlyCfg) = some "agent_blog_data_urls_only" ∧
    ((persistedRecords (runAgent searchOnlyCfg)).map (fun r => r "blog_id")) =
      [some (.vStr "extraction-failed-url-only"),
       some (.vStr "extraction-failed-url-only")] ∧
    ((persistedRecords (runAgent searchOnlyCfg)).map (fun r => r "blog_id")) ≠
      [some (.vStr "extraction-failed"), some (.vStr "extraction-failed")] := by
  refine ⟨by decide, by decide, by decide, by decide, by decide⟩

/-- Claim C7 amended: with the Collection Store empty, the recovery persists
exactly one placeholder record per DISTINCT URL of the successful
`search_web_for_blogs` results found in the history (the collected URL list
is duplicate-free and a URL is collected iff some qualifying search result
contains it); every placeholder carries the identifier
`"extraction-failed-url-only"`, a human-readable failure label as its name,
the bare URL and `"N/A"` in the three populated data fields, while the other
canonical fields are absent. -/
theorem turn_cap_placeholder_recovery_amended (msgs : List Msg) :
    (recoveryRecords msgs).length = (urlsFoundInHistory msgs).length ∧
    (urlsFoundInHistory msgs).Nodup ∧
    (∀ u, u ∈ urlsFoundInHistory msgs ↔
      ∃ m ∈ msgs, ∃ urls, searchHitUrls m = some urls ∧ u ∈ urls) ∧
    (∀ r ∈ recoveryRecords msgs, ∃ u ∈ urlsFoundInHistory msgs,
      r = urlOnlyRecord u ∧
      r "blog_id" = some (.vStr "extraction-failed-url-only") ∧
      r "blog_name" = some (.vStr "추출 실패 - URL만 확보") ∧
      r "url" = some (.vStr u) ∧
      r "post_title" = some (.vStr "N/A") ∧
      r "recent_post_date" = some (.vStr "N/A") ∧
      r "total_posts" = some (.vStr "N/A") ∧
      r "first_post_date" = none) := by
  refine ⟨by simp [recoveryRecords], ?_, ?_, ?_⟩
  · exact nodup_collectFold msgs [] List.nodup_nil
  · intro u
    rw [show urlsFoundInHistory msgs = msgs.foldl collectStep [] from rfl,
      mem_collectFold]
    simp
  · intro r hr
    rw [recoveryRecords, List.mem_map] at hr
    obtain ⟨u, hu, hru⟩ := hr
    subst hru
    exact ⟨u, hu, rfl, by simp [urlOnlyRecord], by simp [urlOnlyRecord],
      by simp [urlOnlyRecord], by simp [urlOnlyRecord], by simp [urlOnlyRecord],
      by simp [urlOnlyRecord], by simp [urlOnlyRecord]⟩

/-- A one-entry history with a successful two-URL search result, for the C7
witness. -/
def w7msg : Msg :=
  ⟨"tool", some "search_web_for_blogs", some "s1",
   .toolResult (.searchOk ["https://a.com/1"] "1 found")⟩

/-- Claim C7 witness: the amended recovery characterisation at a concrete
one-search history. -/
theorem turn_cap_placeholder_recovery_amended_witness :
    (recoveryRecords [w7msg]).length = (urlsFoundInHistory [w7msg]).length ∧
    "https://a.com/1" ∈ urlsFoundInHistory [w7msg] :=
  ⟨(turn_cap_placeholder_recovery_amended [w7msg]).1,
   ((turn_cap_placeholder_recovery_amended [w7msg]).2.2.1 "https://a.com/1").mpr
     ⟨w7msg, List.mem_singleton.mpr rfl, ["https://a.com/1"], by decide, by decide⟩⟩

end Crawl
